import Mathlib

/-!
Calibration store of the BRT_AN_025 FT900 example (`main.c`).

A shallow embedding of `platform_calib_write` and `platform_calib_read`
from `main.c`, together with the flash partition they run against.

* The datalogger driver (`dlog_erase`, `dlog_prog`, `dlog_read`) is declared in
  `ft900_dlog.h` and is not part of the source; it is modelled from the
  specification as a driver whose return code is chosen by the environment.
* `struct touchscreen_calibration` and `VALID_KEY_TOUCHSCREEN` are declared in
  `eve_example.h`; the sentinel value, the payload size and the page size of the
  partition are parameters (`Platform`).
-/

namespace CalibStore

/-! ## Declarations taken as parameters -/

/-- Modelled from the spec: the declarations `main.c` uses but that live outside
the source file. `VALID_KEY_TOUCHSCREEN` is the `uint32_t` validity sentinel
(section 3), `payloadSize` is the number of bytes of
`struct touchscreen_calibration` after its 4-byte `key` field, `pageSize` is
the page size the driver reports at `dlog_init`. -/
structure Platform where
  VALID_KEY_TOUCHSCREEN : Nat
  payloadSize : Nat
  pageSize : Nat
deriving DecidableEq, Repr

/-- The value of `sizeof(struct touchscreen_calibration)`: the 4-byte key followed by
the payload. -/
def Platform.sizeof_calibration (P : Platform) : Nat := 4 + P.payloadSize

/-- The value of `sizeof(flashbuf)` for `uint8_t flashbuf[260]`. -/
def FLASHBUF_SIZE : Nat := 260

/-- The page of the partition that holds the record: `#define CONFIG_PAGE_TOUCHSCREEN 0`. -/
def CONFIG_PAGE_TOUCHSCREEN : Nat := 0

/-- The word read back from erased flash: four bytes `0xFF`. -/
def ERASED_WORD : Nat := 0xFFFFFFFF

/-- The assumptions on the parameters under which the C code has defined
behaviour: the sentinel is a `uint32_t`, one record fits in one page
(section 3 invariant) and one page fits in `flashbuf`. -/
def Platform.WF (P : Platform) : Prop :=
  P.VALID_KEY_TOUCHSCREEN < 2 ^ 32 ∧
  P.sizeof_calibration ≤ P.pageSize ∧
  P.pageSize ≤ FLASHBUF_SIZE

instance (P : Platform) : Decidable P.WF := by
  unfold Platform.WF; infer_instance

/-! ## Records and their object representation -/

/-- The record `struct touchscreen_calibration`: a `uint32_t key` followed by an opaque
payload of `payloadSize` bytes. -/
structure touchscreen_calibration where
  key : Nat
  payload : List Nat
deriving DecidableEq, Repr

/-- Little-endian object representation of a `uint32_t` (the FT900 is little-endian). -/
def store32 (v : Nat) : List Nat :=
  [v % 256, v / 256 % 256, v / 65536 % 256, v / 16777216 % 256]

/-- The `uint32_t` held in the leading four bytes of a buffer. -/
def load32 (buf : List Nat) : Nat :=
  buf.getD 0 0 + 256 * buf.getD 1 0 + 65536 * buf.getD 2 0 + 16777216 * buf.getD 3 0

/-- The bytes of a record in memory, as `memcpy` sees them. -/
def bytes_of_calibration (c : touchscreen_calibration) : List Nat :=
  store32 c.key ++ c.payload

/-- A byte block seen through a `struct touchscreen_calibration *`. -/
def calibration_of_bytes (P : Platform) (bs : List Nat) : touchscreen_calibration :=
  { key := load32 bs, payload := (bs.drop 4).take P.payloadSize }

/-- The call `memset(buf, c, n)`: the leading `n` bytes become `c`. -/
def memset (buf : List Nat) (c : Nat) (n : Nat) : List Nat :=
  List.replicate n c ++ buf.drop n

/-- The call `memcpy(dst, src, n)`: the leading `n` bytes of `dst` become those of `src`. -/
def memcpy (dst src : List Nat) (n : Nat) : List Nat :=
  src.take n ++ dst.drop n

/-! ## The flash partition and its driver -/

/-- A call made to the datalogger driver. -/
inductive DriverCall where
  | erase
  | prog (pgno : Nat) (data : List Nat)
  | read (pgno : Nat)
deriving DecidableEq, Repr

/-- The partition: `flash pg i` is byte `i` of page `pg`; `calls` is the history of
driver calls, oldest first. -/
structure World where
  flash : Nat → Nat → Nat
  calls : List DriverCall

/-- Modelled from the spec: `dlog_erase` of `ft900_dlog.h` (section 6,
`partition_erase(region) -> ok | error`). The environment chooses the return
code `ret`; a negative code is a failure. On success every byte of the
partition holds `0xFF`; on failure the partition is left as it was. -/
def dlog_erase (ret : Int) (w : World) : Int × World :=
  (ret,
   { flash := if ret < 0 then w.flash else fun _ _ => 0xFF,
     calls := w.calls ++ [DriverCall.erase] })

/-- Modelled from the spec: `dlog_prog` of `ft900_dlog.h` (section 6,
`partition_program(region, page_index, buffer: page_size bytes) -> ok | error`).
On success page `pgno` holds the leading `pageSize` bytes of `data`; on failure
the partition is left as it was (section 4.2: after erase succeeds and program
fails "the slot is left erased"). -/
def dlog_prog (P : Platform) (ret : Int) (pgno : Nat) (data : List Nat) (w : World) :
    Int × World :=
  (ret,
   { flash :=
       if ret < 0 then w.flash
       else fun pg i => if pg = pgno ∧ i < P.pageSize then data.getD i 0 else w.flash pg i,
     calls := w.calls ++ [DriverCall.prog pgno data] })

/-- Modelled from the spec: `dlog_read` of `ft900_dlog.h` (section 6,
`partition_read(region, page_index, out_buffer: page_size bytes) -> ok | error`).
On success the leading `pageSize` bytes of the buffer hold page `pgno`; on
failure the buffer is left as it was. The partition is never changed. -/
def dlog_read (P : Platform) (ret : Int) (pgno : Nat) (data : List Nat) (w : World) :
    Int × List Nat × World :=
  (ret,
   if ret < 0 then data
   else memcpy data ((List.range P.pageSize).map (w.flash pgno)) P.pageSize,
   { flash := w.flash, calls := w.calls ++ [DriverCall.read pgno] })

/-! ## The calibration store of `main.c` -/

/-- What a call of `platform_calib_write` or `platform_calib_read` leaves behind:
the `int8_t` result, the record behind the caller's pointer and the partition. -/
structure Outcome where
  ret : Int
  calib : touchscreen_calibration
  world : World

/-- The function `platform_calib_write` (`main.c` lines 115-130). `erase_ret` and
`prog_ret` are the codes the driver returns; `flashbuf` is the indeterminate
initial content of the local buffer. -/
def platform_calib_write (P : Platform) (erase_ret prog_ret : Int)
    (calib : touchscreen_calibration) (flashbuf : List Nat) (w : World) : Outcome :=
  -- dlog_erase();  (the result is not looked at)
  let w1 := (dlog_erase erase_ret w).2
  -- calib->key = VALID_KEY_TOUCHSCREEN;
  let calib1 : touchscreen_calibration :=
    { key := P.VALID_KEY_TOUCHSCREEN % 2 ^ 32, payload := calib.payload }
  -- memset(flashbuf, 0xff, sizeof(flashbuf));
  let flashbuf1 := memset flashbuf 0xff FLASHBUF_SIZE
  -- memcpy(flashbuf, calib, sizeof(struct touchscreen_calibration));
  let flashbuf2 := memcpy flashbuf1 (bytes_of_calibration calib1) P.sizeof_calibration
  -- if (dlog_prog(CONFIG_PAGE_TOUCHSCREEN, (uint32_t *)flashbuf) < 0) return -1;
  let r := dlog_prog P prog_ret CONFIG_PAGE_TOUCHSCREEN flashbuf2 w1
  if r.1 < 0 then
    { ret := -1, calib := calib1, world := r.2 }
  else
    { ret := 0, calib := calib1, world := r.2 }

/-- The function `platform_calib_read` (`main.c` lines 132-147). `read_ret` is the code
the driver returns; `calib` is the record behind the caller's pointer before the
call; `flashbuf` is the indeterminate initial content of the local buffer. -/
def platform_calib_read (P : Platform) (read_ret : Int)
    (calib : touchscreen_calibration) (flashbuf : List Nat) (w : World) : Outcome :=
  -- memset(flashbuf, 0x00, sizeof(flashbuf));
  let flashbuf1 := memset flashbuf 0x00 FLASHBUF_SIZE
  -- if (dlog_read(CONFIG_PAGE_TOUCHSCREEN, (uint32_t *)flashbuf) < 0) return -1;
  let r := dlog_read P read_ret CONFIG_PAGE_TOUCHSCREEN flashbuf1 w
  if r.1 < 0 then
    { ret := -1, calib := calib, world := r.2.2 }
  else
    let flashbuf2 := r.2.1
    -- if (((struct touchscreen_calibration *)flashbuf)->key == VALID_KEY_TOUCHSCREEN)
    if load32 flashbuf2 = P.VALID_KEY_TOUCHSCREEN then
      -- memcpy(calib, flashbuf, sizeof(struct touchscreen_calibration)); return 0;
      { ret := 0,
        calib := calibration_of_bytes P
          (memcpy (bytes_of_calibration calib) flashbuf2 P.sizeof_calibration),
        world := r.2.2 }
    else
      -- return -2;
      { ret := -2, calib := calib, world := r.2.2 }

/-! ## Vocabulary of the claims -/

/-- The key held in the leading four bytes of page 0 of the partition. -/
def flash_key (w : World) : Nat :=
  load32 ((List.range 4).map (w.flash CONFIG_PAGE_TOUCHSCREEN))

/-- The record held in the leading `sizeof(struct touchscreen_calibration)` bytes of
page 0 of the partition. -/
def flash_record (P : Platform) (w : World) : touchscreen_calibration :=
  calibration_of_bytes P ((List.range P.sizeof_calibration).map (w.flash CONFIG_PAGE_TOUCHSCREEN))

/-- The partition with the four key bytes of page 0 replaced by the bytes of `k`
and every other byte kept. -/
def set_flash_key (k : Nat) (w : World) : World :=
  { flash := fun pg i =>
      if pg = CONFIG_PAGE_TOUCHSCREEN ∧ i < 4 then (store32 k).getD i 0 else w.flash pg i,
    calls := w.calls }

/-- The page image of section 4.2 step 3: the encoded record followed by fill bytes
up to the size of the buffer. -/
def encoded_page (P : Platform) (payload : List Nat) : List Nat :=
  store32 P.VALID_KEY_TOUCHSCREEN ++ payload
    ++ List.replicate (FLASHBUF_SIZE - P.sizeof_calibration) 0xFF

/-- An example platform: a 32-bit sentinel, six 32-bit coefficients of payload,
256-byte pages. -/
def examplePlatform : Platform :=
  { VALID_KEY_TOUCHSCREEN := 0xd72f91a3, payloadSize := 24, pageSize := 256 }

/-- An example record with an arbitrary key and 24 payload bytes. -/
def exampleRecord : touchscreen_calibration :=
  { key := 7, payload := (List.range 24).map (fun i => 3 * i + 1) }

/-- A partition every byte of which holds `0x5A`, with no driver call made yet. -/
def exampleWorld : World :=
  { flash := fun _ _ => 0x5A, calls := [] }

/-- An example of what the caller's output record holds before a read. -/
def exampleOutput : touchscreen_calibration :=
  { key := 1, payload := List.replicate 24 9 }

/-- An example of what the local buffer holds on entry: 260 bytes of leftovers. -/
def exampleStack : List Nat := List.replicate 260 0x11

/-- A partition that holds a valid record: `exampleWorld` after a successful write of
`exampleRecord`. -/
def exampleStored : World :=
  (platform_calib_write examplePlatform 0 0 exampleRecord exampleStack exampleWorld).world

/-- A freshly erased partition. -/
def exampleErased : World :=
  { flash := fun _ _ => 0xFF, calls := [] }

/-! ## Lemmas on buffers and on the two functions -/

theorem store32_mod (v : Nat) : store32 (v % 2 ^ 32) = store32 v := by
  simp only [store32]
  have h0 : v % 2 ^ 32 % 256 = v % 256 := by omega
  have h1 : v % 2 ^ 32 / 256 % 256 = v / 256 % 256 := by omega
  have h2 : v % 2 ^ 32 / 65536 % 256 = v / 65536 % 256 := by omega
  have h3 : v % 2 ^ 32 / 16777216 % 256 = v / 16777216 % 256 := by omega
  rw [h0, h1, h2, h3]

theorem load32_store32_append (v : Nat) (h : v < 2 ^ 32) (rest : List Nat) :
    load32 (store32 v ++ rest) = v := by
  simp only [load32, store32]
  norm_num at h
  simp
  omega

theorem getD_memcpy_lt (dst src : List Nat) (n i : Nat) (hn : n ≤ src.length) (hi : i < n) :
    (memcpy dst src n).getD i 0 = src.getD i 0 := by
  unfold memcpy
  simp only [List.getD_eq_getElem?_getD]
  rw [List.getElem?_append_left (by simp; omega)]
  rw [List.getElem?_take_of_lt hi]

theorem getD_map_range (f : Nat → Nat) (n i : Nat) (hi : i < n) :
    ((List.range n).map f).getD i 0 = f i := by
  simp [List.getD_eq_getElem?_getD, List.getElem?_map, List.getElem?_range hi]

theorem load32_eq_of_getD (a b : List Nat)
    (h : ∀ i, i < 4 → a.getD i 0 = b.getD i 0) : load32 a = load32 b := by
  unfold load32
  rw [h 0 (by omega), h 1 (by omega), h 2 (by omega), h 3 (by omega)]

theorem map_getD_range (l : List Nat) (n : Nat) (hn : n ≤ l.length) :
    (List.range n).map (fun i => l.getD i 0) = l.take n := by
  apply List.ext_getElem
  · simp; omega
  · intro i h1 h2
    simp at h1
    simp [List.getD_eq_getElem?_getD, List.getElem?_eq_getElem (show i < l.length by omega)]

theorem calibration_of_bytes_memcpy (P : Platform) (dst src : List Nat)
    (h : P.sizeof_calibration ≤ src.length) :
    calibration_of_bytes P (memcpy dst src P.sizeof_calibration)
      = calibration_of_bytes P src := by
  unfold Platform.sizeof_calibration at h
  unfold calibration_of_bytes
  congr 1
  · apply load32_eq_of_getD
    intro i hi
    exact getD_memcpy_lt dst src _ i h (by unfold Platform.sizeof_calibration; omega)
  · unfold memcpy Platform.sizeof_calibration
    rw [List.drop_append_of_le_length (by simp; omega)]
    rw [List.take_append_of_le_length (by simp; omega)]
    rw [List.drop_take, List.take_take]
    simp


theorem take_read_buffer (data : List Nat) (f : Nat → Nat) (n m : Nat) (h : m ≤ n) :
    (memcpy data ((List.range n).map f) n).take m = (List.range m).map f := by
  unfold memcpy
  rw [List.take_append_of_le_length (by simp; omega), List.take_take, ← List.map_take,
    List.take_range]
  simp [h]

theorem length_read_buffer (data : List Nat) (f : Nat → Nat) (n : Nat) :
    n ≤ (memcpy data ((List.range n).map f) n).length := by
  unfold memcpy
  simp

theorem calibration_of_bytes_take (P : Platform) (bs : List Nat)
    (h : P.sizeof_calibration ≤ bs.length) :
    calibration_of_bytes P (bs.take P.sizeof_calibration) = calibration_of_bytes P bs := by
  have := calibration_of_bytes_memcpy P [] bs h
  simpa [memcpy] using this

theorem load32_read_buffer (P : Platform) (h4 : 4 ≤ P.pageSize) (data : List Nat) (w : World) :
    load32 (memcpy data ((List.range P.pageSize).map (w.flash CONFIG_PAGE_TOUCHSCREEN))
      P.pageSize) = flash_key w := by
  unfold flash_key
  apply load32_eq_of_getD
  intro i hi
  rw [getD_memcpy_lt _ _ _ _ (by simp) (by omega), getD_map_range _ _ _ (by omega),
    getD_map_range _ _ _ hi]

theorem platform_calib_read_ret (P : Platform) (h4 : 4 ≤ P.pageSize) (r : Int)
    (c : touchscreen_calibration) (g : List Nat) (w : World) :
    (platform_calib_read P r c g w).ret =
      if r < 0 then -1 else if flash_key w = P.VALID_KEY_TOUCHSCREEN then 0 else -2 := by
  unfold platform_calib_read dlog_read
  by_cases hr : r < 0
  · simp [hr]
  · simp only [hr, if_false, load32_read_buffer P h4]
    by_cases hk : flash_key w = P.VALID_KEY_TOUCHSCREEN <;> simp [hk]

theorem platform_calib_read_calib (P : Platform) (hs : P.sizeof_calibration ≤ P.pageSize)
    (r : Int) (c : touchscreen_calibration) (g : List Nat) (w : World) :
    (platform_calib_read P r c g w).calib =
      if r < 0 then c
      else if flash_key w = P.VALID_KEY_TOUCHSCREEN then flash_record P w else c := by
  have h4 : 4 ≤ P.pageSize := by unfold Platform.sizeof_calibration at hs; omega
  unfold platform_calib_read dlog_read
  by_cases hr : r < 0
  · simp [hr]
  · simp only [hr, if_false, load32_read_buffer P h4]
    by_cases hk : flash_key w = P.VALID_KEY_TOUCHSCREEN
    · simp only [hk, if_true]
      rw [calibration_of_bytes_memcpy P _ _ (le_trans hs (length_read_buffer _ _ _)),
        ← calibration_of_bytes_take P _ (le_trans hs (length_read_buffer _ _ _)),
        take_read_buffer _ _ _ _ hs]
      rfl
    · simp [hk]

theorem length_store32 (v : Nat) : (store32 v).length = 4 := rfl

theorem platform_calib_write_ret (P : Platform) (e p : Int) (R : touchscreen_calibration)
    (g : List Nat) (w : World) :
    (platform_calib_write P e p R g w).ret = if p < 0 then -1 else 0 := by
  unfold platform_calib_write dlog_prog
  by_cases hp : p < 0 <;> simp [hp]

theorem platform_calib_write_calib (P : Platform) (e p : Int) (R : touchscreen_calibration)
    (g : List Nat) (w : World) :
    (platform_calib_write P e p R g w).calib =
      { key := P.VALID_KEY_TOUCHSCREEN % 2 ^ 32, payload := R.payload } := by
  unfold platform_calib_write dlog_prog
  by_cases hp : p < 0 <;> simp [hp]

theorem platform_calib_write_calls (P : Platform) (e p : Int) (R : touchscreen_calibration)
    (g : List Nat) (w : World) :
    (platform_calib_write P e p R g w).world.calls =
      w.calls ++ [DriverCall.erase,
        DriverCall.prog CONFIG_PAGE_TOUCHSCREEN
          (memcpy (memset g 0xff FLASHBUF_SIZE)
            (bytes_of_calibration
              { key := P.VALID_KEY_TOUCHSCREEN % 2 ^ 32, payload := R.payload })
            P.sizeof_calibration)] := by
  unfold platform_calib_write dlog_prog dlog_erase
  by_cases hp : p < 0 <;> simp [hp]

theorem platform_calib_write_flash (P : Platform) (e p : Int) (R : touchscreen_calibration)
    (g : List Nat) (w : World) :
    (platform_calib_write P e p R g w).world.flash =
      if p < 0 then (if e < 0 then w.flash else fun _ _ => 0xFF)
      else fun pg i =>
        if pg = CONFIG_PAGE_TOUCHSCREEN ∧ i < P.pageSize then
          (memcpy (memset g 0xff FLASHBUF_SIZE)
            (bytes_of_calibration
              { key := P.VALID_KEY_TOUCHSCREEN % 2 ^ 32, payload := R.payload })
            P.sizeof_calibration).getD i 0
        else (if e < 0 then w.flash else fun _ _ => 0xFF) pg i := by
  unfold platform_calib_write dlog_prog dlog_erase
  by_cases hp : p < 0 <;> simp [hp]

theorem write_buffer_take (P : Platform) (payload g : List Nat)
    (hR : payload.length = P.payloadSize) (hsz : P.sizeof_calibration ≤ FLASHBUF_SIZE) :
    (memcpy (memset g 0xff FLASHBUF_SIZE)
      (bytes_of_calibration { key := P.VALID_KEY_TOUCHSCREEN % 2 ^ 32, payload := payload })
      P.sizeof_calibration).take FLASHBUF_SIZE = encoded_page P payload := by
  have hlen : (store32 P.VALID_KEY_TOUCHSCREEN ++ payload).length = P.sizeof_calibration := by
    simp [length_store32, Platform.sizeof_calibration, hR]
  unfold memcpy memset bytes_of_calibration encoded_page
  simp only [store32_mod]
  rw [List.take_of_length_le (le_of_eq hlen),
    List.drop_append_of_le_length (by simpa using hsz), List.drop_replicate,
    ← List.append_assoc]
  apply List.take_left'
  simp only [List.length_append, List.length_replicate, hlen]
  omega

theorem write_buffer_eq (P : Platform) (payload g : List Nat)
    (hR : payload.length = P.payloadSize) (hsz : P.sizeof_calibration ≤ FLASHBUF_SIZE)
    (hg : g.length = FLASHBUF_SIZE) :
    memcpy (memset g 0xff FLASHBUF_SIZE)
      (bytes_of_calibration { key := P.VALID_KEY_TOUCHSCREEN % 2 ^ 32, payload := payload })
      P.sizeof_calibration = encoded_page P payload := by
  rw [← write_buffer_take P payload g hR hsz]
  symm
  apply List.take_of_length_le
  have hlen : (store32 (P.VALID_KEY_TOUCHSCREEN % 2 ^ 32) ++ payload).length
      = P.sizeof_calibration := by
    simp [length_store32, Platform.sizeof_calibration, hR]
  unfold memcpy memset bytes_of_calibration
  simp only [List.length_append, List.length_take, List.length_drop, List.length_replicate,
    hlen, hg]
  omega

theorem length_encoded_page (P : Platform) (payload : List Nat)
    (hR : payload.length = P.payloadSize) (hsz : P.sizeof_calibration ≤ FLASHBUF_SIZE) :
    (encoded_page P payload).length = FLASHBUF_SIZE := by
  unfold encoded_page
  simp only [List.length_append, List.length_replicate, length_store32, hR]
  unfold Platform.sizeof_calibration at *
  omega

theorem getD_take_lt (l : List Nat) (n i : Nat) (hi : i < n) :
    (l.take n).getD i 0 = l.getD i 0 := by
  simp only [List.getD_eq_getElem?_getD]
  rw [List.getElem?_take_of_lt hi]


theorem page_after_write (P : Platform) (e p : Int) (R : touchscreen_calibration)
    (g : List Nat) (w : World) (hp : 0 ≤ p) (hR : R.payload.length = P.payloadSize)
    (hs : P.sizeof_calibration ≤ P.pageSize) (hb : P.pageSize ≤ FLASHBUF_SIZE)
    (n : Nat) (hn : n ≤ P.pageSize) :
    (List.range n).map ((platform_calib_write P e p R g w).world.flash CONFIG_PAGE_TOUCHSCREEN)
      = (encoded_page P R.payload).take n := by
  have hsz : P.sizeof_calibration ≤ FLASHBUF_SIZE := le_trans hs hb
  rw [platform_calib_write_flash, if_neg (not_lt.mpr hp),
    ← map_getD_range _ n (by rw [length_encoded_page P _ hR hsz]; omega)]
  apply List.map_congr_left
  intro i hi
  have hi' : i < n := List.mem_range.mp hi
  rw [if_pos ⟨rfl, by omega⟩, ← write_buffer_take P R.payload g hR hsz,
    getD_take_lt _ _ _ (by omega)]

theorem calibration_of_encoded_page (P : Platform) (payload : List Nat)
    (hK : P.VALID_KEY_TOUCHSCREEN < 2 ^ 32) (hR : payload.length = P.payloadSize) :
    calibration_of_bytes P (encoded_page P payload)
      = { key := P.VALID_KEY_TOUCHSCREEN, payload := payload } := by
  unfold calibration_of_bytes encoded_page
  congr 1
  · rw [List.append_assoc]
    exact load32_store32_append _ hK _
  · rw [List.append_assoc, List.drop_left' (length_store32 _), List.take_left' hR]

theorem flash_record_after_write (P : Platform) (e p : Int) (R : touchscreen_calibration)
    (g : List Nat) (w : World) (hP : P.WF) (hp : 0 ≤ p)
    (hR : R.payload.length = P.payloadSize) :
    flash_record P (platform_calib_write P e p R g w).world
      = { key := P.VALID_KEY_TOUCHSCREEN, payload := R.payload } := by
  obtain ⟨hK, hs, hb⟩ := hP
  unfold flash_record
  rw [page_after_write P e p R g w hp hR hs hb _ hs,
    calibration_of_bytes_take P _
      (by rw [length_encoded_page P _ hR (le_trans hs hb)]; exact le_trans hs hb),
    calibration_of_encoded_page P _ hK hR]

theorem flash_key_after_write (P : Platform) (e p : Int) (R : touchscreen_calibration)
    (g : List Nat) (w : World) (hP : P.WF) (hp : 0 ≤ p)
    (hR : R.payload.length = P.payloadSize) :
    flash_key (platform_calib_write P e p R g w).world = P.VALID_KEY_TOUCHSCREEN := by
  obtain ⟨hK, hs, hb⟩ := hP
  have h4 : 4 ≤ P.pageSize := by unfold Platform.sizeof_calibration at hs; omega
  unfold flash_key
  rw [page_after_write P e p R g w hp hR hs hb 4 h4]
  have : load32 ((encoded_page P R.payload).take 4) = load32 (encoded_page P R.payload) :=
    load32_eq_of_getD _ _ (fun i hi => getD_take_lt _ 4 i hi)
  rw [this]
  unfold encoded_page
  rw [List.append_assoc]
  exact load32_store32_append _ hK _


theorem flash_after_write (P : Platform) (e p : Int) (R : touchscreen_calibration)
    (g : List Nat) (w : World) (he : 0 ≤ e) (hp : 0 ≤ p)
    (hR : R.payload.length = P.payloadSize)
    (hs : P.sizeof_calibration ≤ P.pageSize) (hb : P.pageSize ≤ FLASHBUF_SIZE) :
    (platform_calib_write P e p R g w).world.flash =
      fun pg i =>
        if pg = CONFIG_PAGE_TOUCHSCREEN ∧ i < P.pageSize then
          (encoded_page P R.payload).getD i 0
        else 0xFF := by
  rw [platform_calib_write_flash, if_neg (not_lt.mpr hp), if_neg (not_lt.mpr he)]
  funext pg i
  by_cases h : pg = CONFIG_PAGE_TOUCHSCREEN ∧ i < P.pageSize
  · rw [if_pos h, if_pos h, ← write_buffer_take P R.payload g hR (le_trans hs hb),
      getD_take_lt _ _ _ (by omega)]
  · rw [if_neg h, if_neg h]

theorem flash_key_eq (w : World) :
    flash_key w =
      w.flash CONFIG_PAGE_TOUCHSCREEN 0 + 256 * w.flash CONFIG_PAGE_TOUCHSCREEN 1
        + 65536 * w.flash CONFIG_PAGE_TOUCHSCREEN 2
        + 16777216 * w.flash CONFIG_PAGE_TOUCHSCREEN 3 := by
  unfold flash_key load32
  rw [getD_map_range _ _ _ (by omega), getD_map_range _ _ _ (by omega),
    getD_map_range _ _ _ (by omega), getD_map_range _ _ _ (by omega)]

theorem flash_key_set_flash_key (k : Nat) (hk : k < 2 ^ 32) (w : World) :
    flash_key (set_flash_key k w) = k := by
  rw [flash_key_eq]
  simp only [set_flash_key, store32]
  norm_num at hk
  simp
  omega

theorem flash_key_of_erased (w : World)
    (hE : ∀ i, i < 4 → w.flash CONFIG_PAGE_TOUCHSCREEN i = 0xFF) :
    flash_key w = ERASED_WORD := by
  rw [flash_key_eq, hE 0 (by omega), hE 1 (by omega), hE 2 (by omega), hE 3 (by omega)]
  rfl

theorem flash_key_of_flash_eq (w1 w2 : World) (h : w1.flash = w2.flash) :
    flash_key w1 = flash_key w2 := by
  unfold flash_key; rw [h]

theorem flash_record_of_flash_eq (P : Platform) (w1 w2 : World) (h : w1.flash = w2.flash) :
    flash_record P w1 = flash_record P w2 := by
  unfold flash_record; rw [h]

/-! ## The claims -/

/-- C1 (round trip). For every record `R` of the record type, whatever its key and
payload, and every partition, when the erase, program and read steps all succeed,
`platform_calib_write` returns 0 and the following `platform_calib_read` returns 0
with a record whose payload is the payload of `R` and whose key is
`VALID_KEY_TOUCHSCREEN`. -/
theorem calib_write_read_roundtrip (P : Platform) (e p r : Int)
    (R c0 : touchscreen_calibration) (g1 g2 : List Nat) (w : World)
    (hP : P.WF) (hR : R.payload.length = P.payloadSize)
    (he : 0 ≤ e) (hp : 0 ≤ p) (hr : 0 ≤ r) :
    (platform_calib_write P e p R g1 w).ret = 0 ∧
    (platform_calib_read P r c0 g2 (platform_calib_write P e p R g1 w).world).ret = 0 ∧
    (platform_calib_read P r c0 g2 (platform_calib_write P e p R g1 w).world).calib.payload
      = R.payload ∧
    (platform_calib_read P r c0 g2 (platform_calib_write P e p R g1 w).world).calib.key
      = P.VALID_KEY_TOUCHSCREEN := by
  have _ := he
  have h4 : 4 ≤ P.pageSize := by
    have := hP.2.1
    unfold Platform.sizeof_calibration at this; omega
  have hk := flash_key_after_write P e p R g1 w hP hp hR
  have hrec := flash_record_after_write P e p R g1 w hP hp hR
  rw [platform_calib_write_ret, platform_calib_read_ret P h4,
    platform_calib_read_calib P hP.2.1, hk, hrec]
  simp [not_lt.mpr hp, not_lt.mpr hr]

/-- C1, at the example platform: `exampleRecord` is written to `exampleWorld` and
read back. -/
theorem calib_write_read_roundtrip_witness :
    examplePlatform.WF ∧ exampleRecord.payload.length = examplePlatform.payloadSize ∧
    (platform_calib_write examplePlatform 0 0 exampleRecord exampleStack exampleWorld).ret = 0 ∧
    (platform_calib_read examplePlatform 0 exampleOutput exampleStack
      (platform_calib_write examplePlatform 0 0 exampleRecord exampleStack
        exampleWorld).world).ret = 0 ∧
    (platform_calib_read examplePlatform 0 exampleOutput exampleStack
      (platform_calib_write examplePlatform 0 0 exampleRecord exampleStack
        exampleWorld).world).calib.payload = exampleRecord.payload ∧
    (platform_calib_read examplePlatform 0 exampleOutput exampleStack
      (platform_calib_write examplePlatform 0 0 exampleRecord exampleStack
        exampleWorld).world).calib.key = examplePlatform.VALID_KEY_TOUCHSCREEN :=
  ⟨by decide, by decide,
    calib_write_read_roundtrip examplePlatform 0 0 0 exampleRecord exampleOutput
      exampleStack exampleStack exampleWorld (by decide) (by decide) (by decide) (by decide)
      (by decide)⟩

/-- C2 (fail-safe on an interrupted write). For every prior partition content and
every record, when the erase step succeeds and the program step fails,
`platform_calib_write` returns the error -1 and a following `platform_calib_read`
whose read step succeeds returns -2 and leaves the caller's record as it was;
the sentinel is assumed to differ from the erased word. -/
theorem calib_write_program_failure_failsafe (P : Platform) (e p r : Int)
    (R c0 : touchscreen_calibration) (g1 g2 : List Nat) (w : World)
    (h4 : 4 ≤ P.pageSize) (hK : P.VALID_KEY_TOUCHSCREEN ≠ ERASED_WORD)
    (he : 0 ≤ e) (hp : p < 0) (hr : 0 ≤ r) :
    (platform_calib_write P e p R g1 w).ret = -1 ∧
    (platform_calib_read P r c0 g2 (platform_calib_write P e p R g1 w).world).ret = -2 ∧
    (platform_calib_read P r c0 g2 (platform_calib_write P e p R g1 w).world).calib = c0 := by
  have hfl : (platform_calib_write P e p R g1 w).world.flash = fun _ _ => 0xFF := by
    rw [platform_calib_write_flash, if_pos hp, if_neg (not_lt.mpr he)]
  have hk : flash_key (platform_calib_write P e p R g1 w).world ≠ P.VALID_KEY_TOUCHSCREEN := by
    rw [flash_key_of_erased _ (fun i _ => by rw [hfl])]
    exact fun h => hK h.symm
  refine ⟨?_, ?_, ?_⟩
  · rw [platform_calib_write_ret, if_pos hp]
  · rw [platform_calib_read_ret P h4, if_neg (not_lt.mpr hr), if_neg hk]
  · unfold platform_calib_read dlog_read
    simp only [not_lt.mpr hr, if_false, load32_read_buffer P h4, hk]

/-- C2, at the example platform: a valid record is stored, then a write whose
program step fails is followed by a read. -/
theorem calib_write_program_failure_failsafe_witness :
    4 ≤ examplePlatform.pageSize ∧ examplePlatform.VALID_KEY_TOUCHSCREEN ≠ ERASED_WORD ∧
    (platform_calib_write examplePlatform 0 (-1) exampleRecord exampleStack
      exampleStored).ret = -1 ∧
    (platform_calib_read examplePlatform 0 exampleOutput exampleStack
      (platform_calib_write examplePlatform 0 (-1) exampleRecord exampleStack
        exampleStored).world).ret = -2 ∧
    (platform_calib_read examplePlatform 0 exampleOutput exampleStack
      (platform_calib_write examplePlatform 0 (-1) exampleRecord exampleStack
        exampleStored).world).calib = exampleOutput :=
  ⟨by decide, by decide,
    calib_write_program_failure_failsafe examplePlatform 0 (-1) 0 exampleRecord exampleOutput
      exampleStack exampleStack exampleStored (by decide) (by decide) (by decide) (by decide)
      (by decide)⟩

/-- C3 (the code at the failing input). The erase step reports the failure -1, the
program step reports 0, and `platform_calib_write` returns 0, not -1: the result of
`dlog_erase` is never looked at. -/
theorem calib_write_ignores_erase_failure :
    (dlog_erase (-1) exampleWorld).1 < 0 ∧
    (platform_calib_write examplePlatform (-1) 0 exampleRecord exampleStack exampleWorld).ret
      = 0 ∧
    (platform_calib_write examplePlatform (-1) 0 exampleRecord exampleStack exampleWorld).ret
      ≠ -1 := by
  refine ⟨by decide, ?_, ?_⟩
  · rw [platform_calib_write_ret]; decide
  · rw [platform_calib_write_ret]; decide

/-- C4 (read classification). For every partition content and every code the read
step returns, `platform_calib_read` returns -1 exactly when the read step fails;
when it succeeds the result is 0 exactly when the key in the leading four bytes of
page 0 is the sentinel and -2 exactly when it is not. Overwriting only the key
bytes of the stored record with any other 32-bit value makes the result -2. The
three result codes are pairwise distinct. -/
theorem calib_read_classification (P : Platform) (r : Int) (c0 : touchscreen_calibration)
    (g : List Nat) (w : World) (h4 : 4 ≤ P.pageSize) :
    ((platform_calib_read P r c0 g w).ret = -1 ↔ r < 0) ∧
    (0 ≤ r →
      ((platform_calib_read P r c0 g w).ret = 0 ↔ flash_key w = P.VALID_KEY_TOUCHSCREEN)) ∧
    (0 ≤ r →
      ((platform_calib_read P r c0 g w).ret = -2 ↔ flash_key w ≠ P.VALID_KEY_TOUCHSCREEN)) ∧
    (∀ k, k < 2 ^ 32 → k ≠ P.VALID_KEY_TOUCHSCREEN → 0 ≤ r →
      (platform_calib_read P r c0 g (set_flash_key k w)).ret = -2) ∧
    ((-1 : Int) ≠ 0 ∧ (-1 : Int) ≠ -2 ∧ (0 : Int) ≠ -2) := by
  refine ⟨?_, ?_, ?_, ?_, by decide⟩
  · rw [platform_calib_read_ret P h4]
    by_cases hr : r < 0
    · simp [hr]
    · by_cases hk : flash_key w = P.VALID_KEY_TOUCHSCREEN <;> simp [hr, hk]
  · intro hr
    rw [platform_calib_read_ret P h4, if_neg (not_lt.mpr hr)]
    by_cases hk : flash_key w = P.VALID_KEY_TOUCHSCREEN <;> simp [hk]
  · intro hr
    rw [platform_calib_read_ret P h4, if_neg (not_lt.mpr hr)]
    by_cases hk : flash_key w = P.VALID_KEY_TOUCHSCREEN <;> simp [hk]
  · intro k hk hne hr
    rw [platform_calib_read_ret P h4, if_neg (not_lt.mpr hr), flash_key_set_flash_key k hk,
      if_neg hne]

/-- C4, at the example platform and a partition that holds a valid record. -/
theorem calib_read_classification_witness :
    4 ≤ examplePlatform.pageSize ∧
    (∀ k, k < 2 ^ 32 → k ≠ examplePlatform.VALID_KEY_TOUCHSCREEN → (0 : Int) ≤ 0 →
      (platform_calib_read examplePlatform 0 exampleOutput exampleStack
        (set_flash_key k exampleStored)).ret = -2) :=
  ⟨by decide,
    (calib_read_classification examplePlatform 0 exampleOutput exampleStack exampleStored
      (by decide)).2.2.2.1⟩

/-- C5 (fresh partition). On a partition whose page 0 holds `0xFF` in every byte, and
on any partition right after a successful `dlog_erase`, `platform_calib_read` with a
succeeding read step returns -2 and leaves the caller's record as it was; the
sentinel is assumed to differ from the erased word. -/
theorem calib_read_fresh_partition (P : Platform) (r : Int) (c0 : touchscreen_calibration)
    (g : List Nat) (w : World) (h4 : 4 ≤ P.pageSize)
    (hK : P.VALID_KEY_TOUCHSCREEN ≠ ERASED_WORD) (hr : 0 ≤ r)
    (hE : ∀ i, i < P.pageSize → w.flash CONFIG_PAGE_TOUCHSCREEN i = 0xFF) :
    ((platform_calib_read P r c0 g w).ret = -2 ∧ (platform_calib_read P r c0 g w).calib = c0) ∧
    (∀ (e : Int) (w0 : World), 0 ≤ e →
      (platform_calib_read P r c0 g (dlog_erase e w0).2).ret = -2 ∧
      (platform_calib_read P r c0 g (dlog_erase e w0).2).calib = c0) := by
  have key : ∀ w1 : World, flash_key w1 = ERASED_WORD →
      (platform_calib_read P r c0 g w1).ret = -2 ∧
      (platform_calib_read P r c0 g w1).calib = c0 := by
    intro w1 h1
    have hk : flash_key w1 ≠ P.VALID_KEY_TOUCHSCREEN := by
      rw [h1]; exact fun h => hK h.symm
    refine ⟨?_, ?_⟩
    · rw [platform_calib_read_ret P h4, if_neg (not_lt.mpr hr), if_neg hk]
    · unfold platform_calib_read dlog_read
      simp only [not_lt.mpr hr, if_false, load32_read_buffer P h4, hk]
  refine ⟨key w (flash_key_of_erased w (fun i hi => hE i (by omega))), ?_⟩
  intro e w0 he
  apply key
  apply flash_key_of_erased
  intro i _
  simp [dlog_erase, not_lt.mpr he]

/-- C5, at the example platform and a freshly erased partition. -/
theorem calib_read_fresh_partition_witness :
    4 ≤ examplePlatform.pageSize ∧ examplePlatform.VALID_KEY_TOUCHSCREEN ≠ ERASED_WORD ∧
    (∀ i, i < examplePlatform.pageSize →
      exampleErased.flash CONFIG_PAGE_TOUCHSCREEN i = 0xFF) ∧
    (platform_calib_read examplePlatform 0 exampleOutput exampleStack exampleErased).ret = -2 ∧
    (platform_calib_read examplePlatform 0 exampleOutput exampleStack exampleErased).calib
      = exampleOutput :=
  ⟨by decide, by decide, fun _ _ => rfl,
    (calib_read_fresh_partition examplePlatform 0 exampleOutput exampleStack exampleErased
      (by decide) (by decide) (by decide) (fun _ _ => rfl)).1⟩

/-- C6 (padding determinism). For every record of the record type, every prior
partition content and every initial content of the 260-byte local buffer, the
calls `platform_calib_write` makes are one erase and then one program of page 0,
and the buffer handed to the program step is `encoded_page`: the bytes of the
sentinel, then the payload, then `0xFF` at every index from the size of the
record to the end of the buffer. Nothing in it comes from the partition or from
the buffer's earlier content. -/
theorem calib_write_buffer_padding (P : Platform) (e p : Int) (R : touchscreen_calibration)
    (g : List Nat) (w : World)
    (hsz : P.sizeof_calibration ≤ FLASHBUF_SIZE) (hR : R.payload.length = P.payloadSize)
    (hg : g.length = FLASHBUF_SIZE) :
    (platform_calib_write P e p R g w).world.calls =
      w.calls ++ [DriverCall.erase,
        DriverCall.prog CONFIG_PAGE_TOUCHSCREEN (encoded_page P R.payload)] ∧
    (encoded_page P R.payload).length = FLASHBUF_SIZE ∧
    (encoded_page P R.payload).take P.sizeof_calibration =
      bytes_of_calibration { key := P.VALID_KEY_TOUCHSCREEN, payload := R.payload } ∧
    (∀ i, P.sizeof_calibration ≤ i → i < FLASHBUF_SIZE →
      (encoded_page P R.payload)[i]? = some 0xFF) := by
  have hlen : (store32 P.VALID_KEY_TOUCHSCREEN ++ R.payload).length = P.sizeof_calibration := by
    simp [length_store32, Platform.sizeof_calibration, hR]
  refine ⟨?_, length_encoded_page P _ hR hsz, ?_, ?_⟩
  · rw [platform_calib_write_calls, write_buffer_eq P R.payload g hR hsz hg]
  · unfold encoded_page bytes_of_calibration
    exact List.take_left' hlen
  · intro i h1 h2
    unfold encoded_page
    rw [List.getElem?_append_right (by omega), List.getElem?_replicate, if_pos (by omega)]

/-- C6, at the example platform. -/
theorem calib_write_buffer_padding_witness :
    examplePlatform.sizeof_calibration ≤ FLASHBUF_SIZE ∧
    exampleRecord.payload.length = examplePlatform.payloadSize ∧
    exampleStack.length = FLASHBUF_SIZE ∧
    (platform_calib_write examplePlatform 0 0 exampleRecord exampleStack exampleStored).world.calls
      = exampleStored.calls ++ [DriverCall.erase,
          DriverCall.prog CONFIG_PAGE_TOUCHSCREEN
            (encoded_page examplePlatform exampleRecord.payload)] :=
  ⟨by decide, by decide, List.length_replicate 260 0x11,
    (calib_write_buffer_padding examplePlatform 0 0 exampleRecord exampleStack exampleStored
      (by decide) (by decide) (List.length_replicate 260 0x11)).1⟩

/-- C7 (idempotence of write). For every record of the record type and every prior
partition content, with all driver steps succeeding, a second
`platform_calib_write` of the same record (as the first call left it behind the
caller's pointer, or as it was before the first call) leaves the same partition
content as the first one alone, and `platform_calib_read` afterwards gives the same
result code and the same record. -/
theorem calib_write_idempotent (P : Platform) (e1 p1 e2 p2 r : Int)
    (R c0 : touchscreen_calibration) (g1 g2 g3 : List Nat) (w : World)
    (hP : P.WF) (hR : R.payload.length = P.payloadSize)
    (he1 : 0 ≤ e1) (hp1 : 0 ≤ p1) (he2 : 0 ≤ e2) (hp2 : 0 ≤ p2) :
    ((platform_calib_write P e2 p2 (platform_calib_write P e1 p1 R g1 w).calib g2
        (platform_calib_write P e1 p1 R g1 w).world).world.flash
      = (platform_calib_write P e1 p1 R g1 w).world.flash ∧
    (platform_calib_read P r c0 g3
        (platform_calib_write P e2 p2 (platform_calib_write P e1 p1 R g1 w).calib g2
          (platform_calib_write P e1 p1 R g1 w).world).world).ret
      = (platform_calib_read P r c0 g3 (platform_calib_write P e1 p1 R g1 w).world).ret ∧
    (platform_calib_read P r c0 g3
        (platform_calib_write P e2 p2 (platform_calib_write P e1 p1 R g1 w).calib g2
          (platform_calib_write P e1 p1 R g1 w).world).world).calib
      = (platform_calib_read P r c0 g3 (platform_calib_write P e1 p1 R g1 w).world).calib) ∧
    ((platform_calib_write P e2 p2 R g2 (platform_calib_write P e1 p1 R g1 w).world).world.flash
      = (platform_calib_write P e1 p1 R g1 w).world.flash ∧
    (platform_calib_read P r c0 g3
        (platform_calib_write P e2 p2 R g2 (platform_calib_write P e1 p1 R g1 w).world).world).ret
      = (platform_calib_read P r c0 g3 (platform_calib_write P e1 p1 R g1 w).world).ret ∧
    (platform_calib_read P r c0 g3
        (platform_calib_write P e2 p2 R g2 (platform_calib_write P e1 p1 R g1 w).world).world).calib
      = (platform_calib_read P r c0 g3 (platform_calib_write P e1 p1 R g1 w).world).calib) := by
  obtain ⟨_, hs, hb⟩ := hP
  have h4 : 4 ≤ P.pageSize := by unfold Platform.sizeof_calibration at hs; omega
  have same : ∀ (R2 : touchscreen_calibration) (w2 : World), R2.payload = R.payload →
      (platform_calib_write P e2 p2 R2 g2 w2).world.flash
        = (platform_calib_write P e1 p1 R g1 w).world.flash := by
    intro R2 w2 h2
    rw [flash_after_write P e2 p2 R2 g2 w2 he2 hp2 (by rw [h2]; exact hR) hs hb,
      flash_after_write P e1 p1 R g1 w he1 hp1 hR hs hb, h2]
  have reads : ∀ wa wb : World, wa.flash = wb.flash →
      (platform_calib_read P r c0 g3 wa).ret = (platform_calib_read P r c0 g3 wb).ret ∧
      (platform_calib_read P r c0 g3 wa).calib = (platform_calib_read P r c0 g3 wb).calib := by
    intro wa wb hab
    rw [platform_calib_read_ret P h4, platform_calib_read_ret P h4,
      platform_calib_read_calib P hs, platform_calib_read_calib P hs,
      flash_key_of_flash_eq wa wb hab, flash_record_of_flash_eq P wa wb hab]
    exact ⟨rfl, rfl⟩
  have hc : (platform_calib_write P e1 p1 R g1 w).calib.payload = R.payload := by
    rw [platform_calib_write_calib]
  exact ⟨⟨same _ _ hc, reads _ _ (same _ _ hc)⟩, ⟨same _ _ rfl, reads _ _ (same _ _ rfl)⟩⟩

/-- C7, at the example platform: `exampleRecord` written twice over a partition that
already holds a record. -/
theorem calib_write_idempotent_witness :
    examplePlatform.WF ∧ exampleRecord.payload.length = examplePlatform.payloadSize ∧
    (platform_calib_write examplePlatform 0 0 exampleRecord exampleStack
        (platform_calib_write examplePlatform 0 0 exampleRecord exampleStack
          exampleStored).world).world.flash
      = (platform_calib_write examplePlatform 0 0 exampleRecord exampleStack
          exampleStored).world.flash :=
  ⟨by decide, by decide,
    (calib_write_idempotent examplePlatform 0 0 0 0 0 exampleRecord exampleOutput
      exampleStack exampleStack exampleStack exampleStored (by decide) (by decide)
      (by decide) (by decide) (by decide) (by decide)).2.1⟩

/-- C8 (write result). For every record and every driver outcome,
`platform_calib_write` returns -1 when the program step reports a negative code and
0 when it does not, and the driver calls it makes are exactly an erase followed by
one program of page `CONFIG_PAGE_TOUCHSCREEN`, which is page 0. -/
theorem calib_write_result (P : Platform) (e p : Int) (R : touchscreen_calibration)
    (g : List Nat) (w : World) :
    (p < 0 → (platform_calib_write P e p R g w).ret = -1) ∧
    (0 ≤ p → (platform_calib_write P e p R g w).ret = 0) ∧
    CONFIG_PAGE_TOUCHSCREEN = 0 ∧
    (∃ buf, (platform_calib_write P e p R g w).world.calls =
      w.calls ++ [DriverCall.erase, DriverCall.prog CONFIG_PAGE_TOUCHSCREEN buf]) := by
  refine ⟨?_, ?_, rfl, ⟨_, platform_calib_write_calls P e p R g w⟩⟩
  · intro hp
    rw [platform_calib_write_ret, if_pos hp]
  · intro hp
    rw [platform_calib_write_ret, if_neg (not_lt.mpr hp)]

/-- C9 (write stamps the caller's record). For every record and every driver
outcome, after `platform_calib_write` the key of the caller's record is the
sentinel (a `uint32_t` value) and its payload is unchanged. -/
theorem calib_write_stamps_record (P : Platform) (e p : Int) (R : touchscreen_calibration)
    (g : List Nat) (w : World) (hK : P.VALID_KEY_TOUCHSCREEN < 2 ^ 32) :
    (platform_calib_write P e p R g w).calib.key = P.VALID_KEY_TOUCHSCREEN ∧
    (platform_calib_write P e p R g w).calib.payload = R.payload := by
  rw [platform_calib_write_calib]
  exact ⟨Nat.mod_eq_of_lt hK, rfl⟩

/-- C9, at the example platform with a failing program step. -/
theorem calib_write_stamps_record_witness :
    examplePlatform.VALID_KEY_TOUCHSCREEN < 2 ^ 32 ∧
    (platform_calib_write examplePlatform 0 (-1) exampleRecord exampleStack
      exampleWorld).calib.key = examplePlatform.VALID_KEY_TOUCHSCREEN ∧
    (platform_calib_write examplePlatform 0 (-1) exampleRecord exampleStack
      exampleWorld).calib.payload = exampleRecord.payload :=
  ⟨by decide,
    calib_write_stamps_record examplePlatform 0 (-1) exampleRecord exampleStack exampleWorld
      (by decide)⟩

/-- C10 (read frame). For every partition content, every code the read step returns
and every initial value of the caller's record: when `platform_calib_read` returns -1
or -2 the caller's record is what it was before the call; the result is always one
of -1, -2 and 0, so the record changes only on the result 0; and on the result 0,
when a record fits in a page, it is the record held in the leading bytes of page 0,
as many as the record type has. -/
theorem calib_read_frame (P : Platform) (r : Int) (c0 : touchscreen_calibration)
    (g : List Nat) (w : World) :
    ((platform_calib_read P r c0 g w).ret = -1 ∨ (platform_calib_read P r c0 g w).ret = -2 →
      (platform_calib_read P r c0 g w).calib = c0) ∧
    (P.sizeof_calibration ≤ P.pageSize → (platform_calib_read P r c0 g w).ret = 0 →
      (platform_calib_read P r c0 g w).calib = flash_record P w) ∧
    ((platform_calib_read P r c0 g w).calib ≠ c0 → (platform_calib_read P r c0 g w).ret = 0) ∧
    ((platform_calib_read P r c0 g w).ret = -1 ∨ (platform_calib_read P r c0 g w).ret = -2 ∨
      (platform_calib_read P r c0 g w).ret = 0) := by
  refine ⟨?_, ?_, ?_, ?_⟩
  · unfold platform_calib_read dlog_read
    by_cases hr : r < 0
    · simp [hr]
    · simp only [hr, if_false]
      split <;> simp
  · intro hs
    have h4 : 4 ≤ P.pageSize := by unfold Platform.sizeof_calibration at hs; omega
    rw [platform_calib_read_ret P h4, platform_calib_read_calib P hs]
    by_cases hr : r < 0
    · simp [hr]
    · by_cases hk : flash_key w = P.VALID_KEY_TOUCHSCREEN <;> simp [hr, hk]
  · unfold platform_calib_read dlog_read
    by_cases hr : r < 0
    · simp [hr]
    · simp only [hr, if_false]
      split <;> simp
  · unfold platform_calib_read dlog_read
    by_cases hr : r < 0
    · simp [hr]
    · simp only [hr, if_false]
      split <;> simp

/-- C10, at the example platform: a read whose read step fails, and a read of a
partition without a valid record, both over an output record that holds values. -/
theorem calib_read_frame_witness :
    (platform_calib_read examplePlatform (-1) exampleOutput exampleStack exampleStored).calib
      = exampleOutput ∧
    (platform_calib_read examplePlatform 0 exampleOutput exampleStack exampleErased).calib
      = exampleOutput :=
  ⟨(calib_read_frame examplePlatform (-1) exampleOutput exampleStack exampleStored).1
      (Or.inl (by rw [platform_calib_read_ret examplePlatform (by decide)]; decide)),
    (calib_read_frame examplePlatform 0 exampleOutput exampleStack exampleErased).1
      (Or.inr (by
        rw [platform_calib_read_ret examplePlatform (by decide),
          flash_key_of_erased exampleErased (fun _ _ => rfl)]
        decide))⟩

end CalibStore
